import Mathlib

/-!
Shallow embedding of the reconciliation core of `sbabo/bot_discord_lol`
(`bot.py` and `persistence.py`).

The embedding keeps the source's names where Lean allows it:
`check_games` (the sweep / transition detector), `update_lp` (the standing
refresh), `send_daily_summary` (the digest pass), `leaderboard` (the ranking
sort), `register` (the registration command) and `update_player`
(persistence).  Network calls are modelled as oracles passed in as
arguments; Python exceptions are modelled with `Except`.
-/

/-- Response of the spectator ("current activity") probe for one identity:
a non-200 status (`inactive`), a raised exception in `riot_access` or
`Response.json()` (`err`), or a 200 payload carrying `gameId` and
`gameQueueConfigId` (`active`).  Translated from `check_games`,
bot.py lines 236-242. -/
inductive SpectResp
  | inactive
  | err
  | active (gameId : Nat) (queueId : Int)
  deriving DecidableEq

/-- Combined response of the recent-match lookup done in the end path of
`check_games` (bot.py lines 270-305): `noMatches` models an empty id list
from the by-puuid ids endpoint; `recent hasPlayer queueId win` models a
non-empty id list whose match detail does (`hasPlayer = true`) or does not
contain the tracked puuid among its participants, with the match's
`queueId` and the participant's `win` flag. -/
inductive ResolverResp
  | noMatches
  | recent (hasPlayer : Bool) (queueId : Int) (win : Bool)
  deriving DecidableEq

/-- A notification actually sent by the sweep: `send_game_start` or
`send_game_end` (the latter carries the resolved match's queue and win). -/
inductive Event
  | start (gameId : Nat) (queueId : Int)
  | finish (queueId : Int) (win : Bool)
  deriving DecidableEq

/-- Environment of one sweep tick for one identity: the spectator response
and the recent-match lookup response used for every record ended on that
tick. -/
structure Tick where
  spect : SpectResp
  res : ResolverResp
  deriving DecidableEq

/-- One sweep's processing of a single tracked identity, translated from the
body of `check_games` (bot.py lines 239-308).  The state is the list of this
identity's match ids recorded in `active_games`, in insertion order.

On a 200 response the code only checks `(puuid, match_id) not in
active_games`: there is no queue allow-list check, and a mismatching stored
record is neither ended nor removed.  On a non-200 response the code
iterates every stored `(puuid, m)` record: an empty recent-match list
deletes the record with no event; otherwise the match detail is scanned for
the puuid and `send_game_end` is sent only when it is found; the record is
deleted in every case.  An exception (`err`) propagates out of the sweep,
leaving this identity's records unchanged and emitting nothing. -/
def check_games_step (st : List Nat) (t : Tick) : List Nat × List Event :=
  match t.spect with
  | .err => (st, [])
  | .active gid q =>
      if st.contains gid then (st, [])
      else (st ++ [gid], [.start gid q])
  | .inactive =>
      match t.res with
      | .noMatches => ([], [])
      | .recent hasPlayer q w =>
          if hasPlayer then ([], st.map fun _ => Event.finish q w)
          else ([], [])

/-- Iterated sweeps for a single tracked identity: threads the
`active_games` state and concatenates the emitted events. -/
def runDetect (st : List Nat) : List Tick → List Nat × List Event
  | [] => (st, [])
  | t :: ts =>
      let r1 := check_games_step st t
      let r2 := runDetect r1.1 ts
      (r2.1, r1.2 ++ r2.2)

/-- Number of `start` events in an event list. -/
def countStarts (evs : List Event) : Nat :=
  (evs.filter fun e => match e with | .start _ _ => true | _ => false).length

/-- Number of `end` (finish) events in an event list. -/
def countEnds (evs : List Event) : Nat :=
  (evs.filter fun e => match e with | .finish _ _ => true | _ => false).length

/-- Result of one full sweep of `check_games` over the players list:
the final `active_games` keys (in insertion order), the notifications sent
(tagged with the identity they were sent for), and whether the sweep ran to
completion (`ok = false` when an exception aborted it). -/
structure SweepResult where
  state : List (String × Nat)
  events : List (String × Event)
  ok : Bool
  deriving DecidableEq

/-- Processing of one identity inside a full sweep, on the shared
`active_games` map keyed by `(puuid, match_id)`.  Identical to
`check_games_step` but on the keyed state: the end path deletes exactly
this puuid's records, preserving the order of the others. -/
def check_games_player (st : List (String × Nat)) (puuid : String) (t : Tick) :
    List (String × Nat) × List Event :=
  match t.spect with
  | .err => (st, [])
  | .active gid q =>
      if st.contains (puuid, gid) then (st, [])
      else (st ++ [(puuid, gid)], [.start gid q])
  | .inactive =>
      let mine := st.filter fun pm => pm.1 == puuid
      let rest := st.filter fun pm => !(pm.1 == puuid)
      match t.res with
      | .noMatches => (rest, [])
      | .recent hasPlayer q w =>
          if hasPlayer then (rest, mine.map fun _ => Event.finish q w)
          else (rest, [])

/-- One full sweep of `check_games` (bot.py lines 219-308) over the players
list.  `riot_access` performs `requests.get` with no exception handling and
the sweep body has no try/except, so a raised exception for one identity
propagates out of the `for info in players` loop: identities processed
before it keep their effects, identities after it are not processed at all
that tick. -/
def check_games_sweep (env : String → Tick) :
    List String → List (String × Nat) → SweepResult
  | [], st => ⟨st, [], true⟩
  | p :: ps, st =>
      if (env p).spect = .err then ⟨st, [], false⟩
      else
        let r1 := check_games_player st p (env p)
        let r2 := check_games_sweep env ps r1.1
        ⟨r2.state, (r1.2.map fun e => (p, e)) ++ r2.events, r2.ok⟩

/-- A queue-scoped standing dictionary as `update_lp` writes it.  The reset
dictionary written at bot.py lines 411-412 carries no `wins`/`losses` keys,
so those two are `Option`; `tier`, `rank`, `lp` and `daily_lp` are always
present once the dictionary exists. -/
structure Standing where
  tier : String
  rank : String
  lp : Int
  daily_lp : Int
  wins : Option Nat
  losses : Option Nat
  deriving DecidableEq

/-- The reset value written unconditionally at the top of `update_lp`
(bot.py lines 411-412). -/
def resetStanding : Standing :=
  ⟨"UNRANKED", "", 0, 0, none, none⟩

/-- One registered account dictionary from the `players` list.  `register`
creates it with only `puuid` and `name` (bot.py line 214), so the nested
standings and the top-level `lp` cache written by `send_game_end` are
`Option`. -/
structure Account where
  puuid : String
  name : String
  solo : Option Standing
  flex : Option Standing
  lp : Option Int
  deriving DecidableEq

/-- One entry of the league-v4 standing endpoint response
(bot.py lines 418-424). -/
structure LeagueEntry where
  queueType : String
  leaguePoints : Int
  tier : String
  rank : String
  wins : Nat
  losses : Nat
  deriving DecidableEq

/-- Processing of one response entry inside the `for entry in data` loop of
`update_lp` (bot.py lines 418-448).  After the unconditional reset the
`solo`/`flex` keys are always present, so `target_account["solo"].get("lp",
new_lp)` reads the stored value (`0` right after the reset) and
`.get("daily_lp", 0)` likewise. -/
def update_lp_entry (acc : Account) (e : LeagueEntry) : Account :=
  if e.queueType = "RANKED_SOLO_5x5" then
    let s := acc.solo.getD resetStanding
    let diff := e.leaguePoints - s.lp
    { acc with solo := some ⟨e.tier, e.rank, e.leaguePoints, s.daily_lp + diff,
        some e.wins, some e.losses⟩ }
  else if e.queueType = "RANKED_FLEX_SR" then
    let s := acc.flex.getD resetStanding
    let diff := e.leaguePoints - s.lp
    { acc with flex := some ⟨e.tier, e.rank, e.leaguePoints, s.daily_lp + diff,
        some e.wins, some e.losses⟩ }
  else acc

/-- The standing refresh `update_lp` (bot.py lines 394-448) applied to the
account found by puuid, given the standing endpoint's response `data`.
The source resets both nested standings to the UNRANKED dictionary before
reading `data` — the comment there says "Initialise si aucun rang" but the
reset is unconditional — and then folds the response entries. -/
def update_lp (acc : Account) (data : List LeagueEntry) : Account :=
  let acc0 : Account :=
    { acc with solo := some resetStanding, flex := some resetStanding }
  if data.isEmpty then acc0
  else data.foldl update_lp_entry acc0

/-- The tier table `rank_order` of bot.py lines 84-95; the sort key uses
`.get(tier, 0)`, hence the `0` fallback. -/
def rank_order (t : String) : Nat :=
  if t = "IRON" then 1
  else if t = "BRONZE" then 2
  else if t = "SILVER" then 3
  else if t = "GOLD" then 4
  else if t = "PLATINUM" then 5
  else if t = "DIAMOND" then 6
  else if t = "MASTER" then 7
  else if t = "GRANDMASTER" then 8
  else if t = "CHALLENGER" then 9
  else if t = "UNRANKED" then 99
  else 0

/-- The division table `division_order` of bot.py lines 98-104, with the
same `.get(rank, 0)` fallback. -/
def division_order (r : String) : Nat :=
  if r = "IV" then 4
  else if r = "III" then 3
  else if r = "II" then 2
  else if r = "I" then 1
  else if r = "" then 99
  else 0

/-- One row of the list the `leaderboard` command builds before sorting
(bot.py lines 457-464). -/
structure LBEntry where
  name : String
  tier : String
  rank : String
  lp : Int
  deriving DecidableEq

/-- The sort key of bot.py line 468:
`(rank_order.get(tier, 0), division_order.get(rank, 0), lp if tier !=
"UNRANKED" else -1)`. -/
def leaderboard_key (x : LBEntry) : Nat × Nat × Int :=
  (rank_order x.tier, division_order x.rank,
    if x.tier = "UNRANKED" then -1 else x.lp)

/-- Lexicographic comparison of two sort keys, `a` weakly before `b`;
this is the tuple comparison Python's `sorted` applies to the keys. -/
def keyLe (a b : LBEntry) : Bool :=
  let ka := leaderboard_key a
  let kb := leaderboard_key b
  decide (ka.1 < kb.1 ∨ (ka.1 = kb.1 ∧ (ka.2.1 < kb.2.1 ∨
    (ka.2.1 = kb.2.1 ∧ ka.2.2 ≤ kb.2.2))))

/-- Stable ascending insertion: places `x` before the first element whose
key is not below `x`'s, which on a total preorder reproduces the output of
Python's stable `sorted`. -/
def lbInsert (x : LBEntry) : List LBEntry → List LBEntry
  | [] => [x]
  | y :: ys => if keyLe x y then x :: y :: ys else y :: lbInsert x ys

/-- Stable sort by `leaderboard_key`, ascending: the `sorted(...)` call of
bot.py lines 466-470. -/
def leaderboard_sort : List LBEntry → List LBEntry
  | [] => []
  | x :: xs => lbInsert x (leaderboard_sort xs)

/-- Row extraction of the `leaderboard` command (bot.py lines 457-464):
each player's `solo` standing, defaulting to the UNRANKED dictionary when
the key is absent. -/
def leaderboard_rows (ps : List Account) : List LBEntry :=
  ps.map fun p =>
    let s := p.solo.getD resetStanding
    ⟨p.name, s.tier, s.rank, s.lp⟩

/-- The full leaderboard ordering: rows built from the players list, then
the stable ascending sort of bot.py lines 466-470. -/
def leaderboard (ps : List Account) : List LBEntry :=
  leaderboard_sort (leaderboard_rows ps)

/-- Python's `str.split(sep)` for a one-character separator, on the list of
characters: `"A#B#C".split("#") == ["A", "B", "C"]`, `"AB".split("#") ==
["AB"]`, `"A#".split("#") == ["A", ""]`. -/
def splitOnChar (c : Char) : List Char → List (List Char)
  | [] => [[]]
  | x :: xs =>
      let r := splitOnChar c xs
      if x = c then [] :: r
      else
        match r with
        | [] => [[x]]
        | g :: gs => (x :: g) :: gs

/-- Python's `pseudo.split("#")` as used by `register` (bot.py line 204). -/
def pySplitHash (s : String) : List String :=
  (splitOnChar '#' s.data).map List.asString

/-- The `register` command (bot.py lines 190-217).  `lookup name tag` is the
account-v1 by-riot-id endpoint, returning the puuid exactly when the JSON
response contains a `puuid` key; `lpData` is the league-v4 response used by
the `update_lp` call on the freshly appended account.  The result is the
new players list together with the messages sent to the channel, or
`Except.error` for an unhandled Python exception: `name, tag =
pseudo.split("#")` raises `ValueError` whenever the split does not yield
exactly two parts, which the preceding `"#" not in pseudo` guard rules out
only for zero-`#` input. -/
def register (pseudo : String) (lookup : String → String → Option String)
    (lpData : List LeagueEntry) (players : List Account) :
    Except String (List Account × List String) :=
  if !pseudo.data.contains '#' then
    .ok (players, ["Format invalide : Nom#TAG"])
  else
    match pySplitHash pseudo with
    | [name, tag] =>
        match lookup name tag with
        | none => .ok (players, ["Riot ID invalide."])
        | some puuid =>
            if players.any fun acc => acc.puuid = puuid then
              .ok (players, ["Le compte " ++ pseudo ++ " est deja enregistre."])
            else
              let account : Account := ⟨puuid, pseudo, none, none, none⟩
              let players2 := players ++ [account]
              let players3 := players2.map fun a =>
                if a.puuid = puuid then update_lp a lpData else a
              .ok (players3, ["Riot ID " ++ pseudo ++ " enregistre avec succes."])
    | _ => .error "ValueError"

/-- A tier/rank/lp snapshot as stored in the digest's `yesterday_lp`
reference map (bot.py lines 534-546). -/
structure Snap where
  tier : String
  rank : String
  lp : Int
  deriving DecidableEq

/-- The default snapshot produced by the chained `.get` defaults of the
digest (`tier "UNRANKED"`, `rank ""`, `lp 0`). -/
def defaultSnap : Snap := ⟨"UNRANKED", "", 0⟩

/-- Runtime shape of the global `players` object.  bot.py line 77 defines it
as a Python list (and `register` appends to it), but `send_daily_summary`
iterates `players.items()`, which only a dict supports. -/
inductive PyPlayers
  | pylist (ps : List Account)
  | pydict (ps : List (String × Account))
  deriving DecidableEq

/-- Python attribute dispatch for `players.items()`: a dict yields its
key/value pairs, a list raises `AttributeError`. -/
def pyItems : PyPlayers → Except String (List (String × Account))
  | .pylist _ => .error "AttributeError"
  | .pydict ps => .ok ps

/-- The data content of one field the digest adds to an embed
(bot.py lines 505-513): yesterday's and today's tier/rank/lp, the
`delta_lp` value, and the win/loss counters read for the record line.
String formatting and the rounded winrate percentage are abstracted away;
every stored datum that feeds them is kept. -/
structure SummaryLine where
  pseudo : String
  yTier : String
  yRank : String
  yLp : Int
  tTier : String
  tRank : String
  tLp : Int
  delta_lp : Int
  wins : Nat
  losses : Nat
  deriving DecidableEq

/-- One queue's summary line for one player (bot.py lines 501-513):
`today` defaults to the UNRANKED dictionary when the `solo`/`flex` key is
absent, and `delta_lp` is `today.lp - yesterday.lp` when the tiers agree
and `today.lp` otherwise. -/
def summary_line (pseudo : String) (y : Snap) (t : Option Standing) :
    SummaryLine :=
  let today := t.getD resetStanding
  let delta := if today.tier = y.tier then today.lp - y.lp else today.lp
  ⟨pseudo, y.tier, y.rank, y.lp, today.tier, today.rank, today.lp, delta,
    today.wins.getD 0, today.losses.getD 0⟩

/-- Lookup `yesterday_lp.get(pseudo, {})` followed by the per-queue
`.get("solo"/"flex", default)` reads (bot.py lines 501 and 516). -/
def yesterdayFor (m : List (String × Snap × Snap)) (pseudo : String) :
    Snap × Snap :=
  match m.lookup pseudo with
  | some v => v
  | none => (defaultSnap, defaultSnap)

/-- The per-player loop of `send_daily_summary` (bot.py lines 499-528).
The loop body's first statement reads the global name `yesterday_lp`, which
is defined nowhere in bot.py, so when the loop body runs at all with the
global undefined it raises `NameError`. -/
def sds_lines (ylp : Option (List (String × Snap × Snap))) :
    List (String × Account) →
      Except String (List SummaryLine × List SummaryLine)
  | [] => .ok ([], [])
  | (pseudo, pdata) :: rest => do
      let m ← match ylp with
        | none => Except.error "NameError"
        | some m => Except.ok m
      let y := yesterdayFor m pseudo
      let sline := summary_line pseudo y.1 pdata.solo
      let fline := summary_line pseudo y.2 pdata.flex
      let r ← sds_lines ylp rest
      .ok (sline :: r.1, fline :: r.2)

/-- Snapshot extraction of the digest's closing loop (bot.py lines
534-546): `pdata.get("solo", {}).get("tier", "UNRANKED")` and friends. -/
def snapOf (s : Option Standing) : Snap :=
  match s with
  | some st => ⟨st.tier, st.rank, st.lp⟩
  | none => defaultSnap

/-- Python dict subscript assignment `m[k] = v`: replaces the value of an
existing key in place, otherwise appends the new key at the end. -/
def dictSet (k : String) (v : α) : List (String × α) → List (String × α)
  | [] => [(k, v)]
  | (k2, v2) :: rest =>
      if k2 = k then (k, v) :: rest else (k2, v2) :: dictSet k v rest

/-- The digest pass `send_daily_summary` (bot.py lines 485-546).  Inputs:
the global `players` object and the global `yesterday_lp` map (`none` when
the name is undefined, which is the case in the source — no assignment to
it exists at module level).  Output on normal return: the untouched
`players` object, the two embeds' data lines, and the new `yesterday_lp`
map written by the closing loop (`none` when the loop body never ran and
the global stays undefined).  `Except.error` models an unhandled
exception. -/
def send_daily_summary (players : PyPlayers)
    (yesterday_lp : Option (List (String × Snap × Snap))) :
    Except String (PyPlayers × List SummaryLine × List SummaryLine ×
      Option (List (String × Snap × Snap))) := do
  let ps ← pyItems players
  let lines ← sds_lines yesterday_lp ps
  let newY : Option (List (String × Snap × Snap)) :=
    match yesterday_lp with
    | some m0 =>
        some (ps.foldl
          (fun m pd => dictSet pd.1 (snapOf pd.2.solo, snapOf pd.2.flex) m)
          m0)
    | none => none
  .ok (players, lines.1, lines.2, newY)

/-- One stored player record of persistence.py: a dict with a `puuid` key
plus arbitrary further key/value data. -/
structure PPlayer where
  puuid : String
  data : List (String × String)
  deriving DecidableEq

/-- The persistence operation `update_player` (persistence.py lines
214-269): scans the list with `enumerate`, replaces the first entry whose
`puuid` equals the given player's and returns `True`; returns `False`
leaving the list as is when no entry matches.  The `save_data` upload it
triggers on success is an external side effect with no bearing on the
returned list. -/
def update_player (player : PPlayer) : List PPlayer → Bool × List PPlayer
  | [] => (false, [])
  | p :: ps =>
      if p.puuid = player.puuid then (true, player :: ps)
      else
        let r := update_player player ps
        (r.1, p :: r.2)

/-- C1 (counterexample): for the sample sequence (inactive,
active-session-1-category-400, inactive), with the end's recent-match
lookup succeeding, the detector emits a start and an end — two events, not
zero — because `check_games` creates a Session Record and notifies for an
active game of any queue category. -/
theorem detector_no_allowlist_cex :
    runDetect [] [⟨.inactive, .noMatches⟩, ⟨.active 1 400, .noMatches⟩,
        ⟨.inactive, .recent true 400 true⟩] =
      ([], [.start 1 400, .finish 400 true]) ∧
    (runDetect [] [⟨.inactive, .noMatches⟩, ⟨.active 1 400, .noMatches⟩,
        ⟨.inactive, .recent true 400 true⟩]).2 ≠ [] := by
  decide

/-- C1 (amended): the Transition Detector applies no category allow-list:
for every stored state and every active sample whose session identifier is
not already recorded, regardless of its queue category, `check_games`
creates the Session Record and emits a start event. -/
theorem detector_no_allowlist (st : List Nat) (gid : Nat) (q : Int)
    (r : ResolverResp) (h : st.contains gid = false) :
    check_games_step st ⟨.active gid q, r⟩ = (st ++ [gid], [.start gid q]) := by
  have h2 : gid ∉ st := by simpa using h
  simp [check_games_step, h2]

/-- C1 (witness): the amended theorem evaluated at an empty directory with
queue 400, a category outside the monitored set. -/
theorem detector_no_allowlist_witness :
    (([] : List Nat).contains 1 = false) ∧
      check_games_step [] ⟨.active 1 400, .noMatches⟩ = ([1], [.start 1 400]) :=
  ⟨rfl, detector_no_allowlist [] 1 400 .noMatches rfl⟩

/-- C2 (counterexample): with a Session Record for session 1 stored, a
fresh active sample with session identifier 2 makes `check_games` emit only
a start event for 2; no end event is emitted and the old record for 1 is
still present afterwards. -/
theorem session_mismatch_cex :
    check_games_step [1] ⟨.active 2 420, .noMatches⟩ =
      ([1, 2], [.start 2 420]) ∧
    countEnds (check_games_step [1] ⟨.active 2 420, .noMatches⟩).2 = 0 ∧
    (check_games_step [1] ⟨.active 2 420, .noMatches⟩).1.contains 1 = true := by
  decide

/-- C2 (amended): on a session-identifier mismatch while a record is
stored, `check_games` emits only a start event for the new session and adds
a second Session Record, retaining the old one (records accumulate, no end
is emitted in that tick); on the next inactive sample, when the
recent-match lookup finds the player, one end event is emitted per
accumulated record and all records are removed. -/
theorem session_mismatch_accumulates (a b : Nat) (q q2 : Int)
    (r : ResolverResp) (w : Bool) (h : a ≠ b) :
    check_games_step [a] ⟨.active b q, r⟩ = ([a, b], [.start b q]) ∧
    check_games_step [a, b] ⟨.inactive, .recent true q2 w⟩ =
      ([], [.finish q2 w, .finish q2 w]) := by
  constructor
  · simp [check_games_step, List.contains_cons, Ne.symm h]
  · rfl

/-- C2 (witness): the amended theorem evaluated at old session 1, new
session 2, queue 420. -/
theorem session_mismatch_accumulates_witness :
    (1 : Nat) ≠ 2 ∧
    (check_games_step [1] ⟨.active 2 420, .noMatches⟩ =
        ([1, 2], [.start 2 420]) ∧
      check_games_step [1, 2] ⟨.inactive, .recent true 420 true⟩ =
        ([], [.finish 420 true, .finish 420 true])) :=
  ⟨by decide, session_mismatch_accumulates 1 2 420 420 .noMatches true
    (by decide)⟩

/-- C8 (counterexample): a stored session ended while the recent-match
lookup resolves to a match of queue 400 — a category outside the monitored
set — still produces an end notification: `check_games` performs no
allow-list check in its end path. -/
theorem end_no_allowlist_cex :
    check_games_step [7] ⟨.inactive, .recent true 400 true⟩ =
      ([], [Event.finish 400 true]) ∧
    countEnds [Event.finish 400 true] = 1 := by
  decide

/-- C8 (amended): the end path of `check_games` performs no queue/category
allow-list check on the resolved match: whenever the recent-match detail
contains the player, the end notification is sent regardless of the
match's category, one per stored record, and every record is cleared. -/
theorem end_no_allowlist (st : List Nat) (q : Int) (w : Bool) :
    check_games_step st ⟨.inactive, .recent true q w⟩ =
      ([], st.map fun _ => Event.finish q w) := rfl

/-- Account used for the C3 refresh trace: freshly registered, no standing
keys yet. -/
def c3Account : Account := ⟨"p1", "Ash#EUW", none, none, none⟩

/-- Solo-queue standing endpoint entry with the given point value, used for
the C3 refresh trace. -/
def c3Entry (lp : Int) : LeagueEntry :=
  ⟨"RANKED_SOLO_5x5", lp, "GOLD", "II", 10, 5⟩

/-- C3 (code bug): for the refresh sequence where the stored points go
40 → 25 → 60 with no digest reset in between, `update_lp` leaves the
rolling accumulator `daily_lp` at 60, not at the claimed +20: the function
resets the stored standing to the UNRANKED dictionary on every call (the
comment there says "Initialise si aucun rang" but the reset is
unconditional), so after every refresh `daily_lp` equals the latest point
value instead of accumulating differences. -/
theorem update_lp_reset_bug :
    (update_lp (update_lp (update_lp c3Account [c3Entry 40]) [c3Entry 25])
        [c3Entry 60]).solo =
      some ⟨"GOLD", "II", 60, 60, some 10, some 5⟩ ∧
    (update_lp (update_lp c3Account [c3Entry 40]) [c3Entry 25]).solo =
      some ⟨"GOLD", "II", 25, 25, some 10, some 5⟩ ∧
    ((update_lp (update_lp (update_lp c3Account [c3Entry 40]) [c3Entry 25])
        [c3Entry 60]).solo.getD resetStanding).daily_lp ≠ 20 := by
  decide

/-- Lemma for C4: a sweep whose head identity's probe raises stops at once,
leaving the state as it was and sending nothing. -/
theorem check_games_sweep_err (env : String → Tick) (p : String)
    (ps : List String) (st : List (String × Nat))
    (h : (env p).spect = .err) :
    check_games_sweep env (p :: ps) st = ⟨st, [], false⟩ := by
  simp only [check_games_sweep, if_pos h]

/-- Lemma for C4: a sweep whose head identity's probe does not raise
processes that identity and continues with the rest. -/
theorem check_games_sweep_cons (env : String → Tick) (p : String)
    (ps : List String) (st : List (String × Nat))
    (h : (env p).spect ≠ .err) :
    check_games_sweep env (p :: ps) st =
      ⟨(check_games_sweep env ps (check_games_player st p (env p)).1).state,
       ((check_games_player st p (env p)).2.map fun e => (p, e)) ++
         (check_games_sweep env ps (check_games_player st p (env p)).1).events,
       (check_games_sweep env ps (check_games_player st p (env p)).1).ok⟩ := by
  simp only [check_games_sweep, if_neg h]

/-- C4 (amended): an exception raised by the Sampler probe for identity `a`
aborts the remainder of the sweep: the whole sweep behaves exactly like the
sweep of the identities before `a` — same final directory, same events —
and no identity at or after `a` is classified that tick (in particular
their stored Session Records are untouched and no event is emitted for
them). -/
theorem sweep_abort_on_error (env : String → Tick) (pre post : List String)
    (a : String) (st : List (String × Nat))
    (hpre : ∀ p ∈ pre, (env p).spect ≠ .err)
    (ha : (env a).spect = .err) :
    check_games_sweep env (pre ++ a :: post) st =
      ⟨(check_games_sweep env pre st).state,
       (check_games_sweep env pre st).events, false⟩ := by
  induction pre generalizing st with
  | nil =>
      simpa using check_games_sweep_err env a post st ha
  | cons p pre ih =>
      have hp : (env p).spect ≠ .err := hpre p (by simp)
      have hrest : ∀ r ∈ pre, (env r).spect ≠ .err := fun r hr =>
        hpre r (by simp [hr])
      rw [List.cons_append, check_games_sweep_cons env p _ _ hp,
        check_games_sweep_cons env p _ _ hp,
        ih (check_games_player st p (env p)).1 hrest]

/-- Environment for the C4 scenario: the probe for identity "A" raises,
the probe for identity "B" reports an active ranked game. -/
def c4Env : String → Tick := fun p =>
  if p = "A" then ⟨.err, .noMatches⟩ else ⟨.active 1 420, .noMatches⟩

/-- C4 (counterexample): in a sweep over ["A", "B"] where the Sampler call
for "A" raises, no event at all is emitted — in particular identity "B",
whose probe reports a new active ranked game and who would have been
classified `start` had it been processed (second conjunct), gets no
classification in that sweep. -/
theorem sweep_abort_cex :
    check_games_sweep c4Env ["A", "B"] [] = ⟨[], [], false⟩ ∧
    check_games_sweep c4Env ["B"] [] =
      ⟨[("B", 1)], [("B", .start 1 420)], true⟩ := by
  constructor
  · rfl
  · rfl

/-- C4 (witness): the abort theorem applied with an empty prefix, the
failing identity "A" and the pending identity "B". -/
theorem sweep_abort_on_error_witness :
    (∀ p ∈ ([] : List String), (c4Env p).spect ≠ .err) ∧
    (c4Env "A").spect = .err ∧
    check_games_sweep c4Env (([] : List String) ++ "A" :: ["B"]) [] =
      ⟨(check_games_sweep c4Env [] []).state,
       (check_games_sweep c4Env [] []).events, false⟩ :=
  ⟨fun p hp => absurd hp (List.not_mem_nil p), rfl,
    sweep_abort_on_error c4Env [] ["B"] "A" []
      (fun p hp => absurd hp (List.not_mem_nil p)) rfl⟩

/-- Success of the single-attempt outcome resolution, as the end path of
`check_games` needs it: a non-empty recent-match list whose detail contains
the tracked player. -/
def resOk : ResolverResp → Bool
  | .recent true _ _ => true
  | _ => false

/-- Lemma for C7: `countStarts` distributes over append. -/
theorem countStarts_append (a b : List Event) :
    countStarts (a ++ b) = countStarts a + countStarts b := by
  simp [countStarts, List.filter_append]

/-- Lemma for C7: `countEnds` distributes over append. -/
theorem countEnds_append (a b : List Event) :
    countEnds (a ++ b) = countEnds a + countEnds b := by
  simp [countEnds, List.filter_append]

/-- Lemma for C7: ending every stored record emits one end event per
record and no start event. -/
theorem counts_map_finish (q : Int) (w : Bool) (st : List Nat) :
    countEnds (st.map fun _ => Event.finish q w) = st.length ∧
    countStarts (st.map fun _ => Event.finish q w) = 0 :=
  ⟨by simp [countEnds], by simp [countStarts]⟩

/-- Lemma for C7: one tick whose resolver oracle succeeds preserves the
balance (ends emitted so far) + (open records) = (starts emitted so
far). -/
theorem check_games_step_balance (st : List Nat) (t : Tick)
    (h : resOk t.res = true) :
    countEnds (check_games_step st t).2 + (check_games_step st t).1.length =
      countStarts (check_games_step st t).2 + st.length := by
  obtain ⟨spect, res⟩ := t
  cases spect with
  | err => simp [check_games_step, countStarts, countEnds]
  | inactive =>
      cases res with
      | noMatches => simp [resOk] at h
      | recent hp q w =>
          cases hp with
          | false => simp [resOk] at h
          | true =>
              have hc := counts_map_finish q w st
              show countEnds (st.map fun _ => Event.finish q w) +
                  ([] : List Nat).length =
                countStarts (st.map fun _ => Event.finish q w) + st.length
              rw [hc.1, hc.2]
              simp
  | active gid q =>
      by_cases hmem : gid ∈ st
      · simp [check_games_step, hmem, countStarts, countEnds]
      · simp [check_games_step, hmem, countStarts, countEnds, List.filter]
        omega

/-- Lemma for C7: over any run in which every tick's recent-match oracle
succeeds, (ends emitted) + (records still open) = (starts emitted) +
(records open at the beginning). -/
theorem runDetect_balance (ts : List Tick) :
    ∀ st : List Nat, (∀ t ∈ ts, resOk t.res = true) →
      countEnds (runDetect st ts).2 + (runDetect st ts).1.length =
        countStarts (runDetect st ts).2 + st.length := by
  induction ts with
  | nil =>
      intro st _
      simp [runDetect, countStarts, countEnds]
  | cons t ts ih =>
      intro st h
      have ht : resOk t.res = true := h t (by simp)
      have hts : ∀ u ∈ ts, resOk u.res = true := fun u hu => h u (by simp [hu])
      have hstep := check_games_step_balance st t ht
      have hrec := ih (check_games_step st t).1 hts
      simp only [runDetect, countStarts_append, countEnds_append]
      omega

/-- C7 (counterexample): the trace (active session 1 queue 420, then
inactive with an empty recent-match list) brings the identity back to the
terminal inactive/no-record state having emitted one start and zero ends:
a failed outcome resolution deletes the Session Record without an end
event, so start/end parity does not hold for every response sequence. -/
theorem parity_cex :
    runDetect [] [⟨.active 1 420, .noMatches⟩, ⟨.inactive, .noMatches⟩] =
      ([], [.start 1 420]) ∧
    countStarts [Event.start 1 420] = 1 ∧
    countEnds [Event.start 1 420] = 0 := by
  decide

/-- C7 (amended): start/end parity holds provided every tick's outcome
resolution succeeds (non-empty recent-match list containing the player):
for every such sequence of Sampler responses that leaves the identity with
no Session Record, the number of start events emitted equals the number of
end events emitted. -/
theorem parity_with_resolution (ts : List Tick)
    (h : ∀ t ∈ ts, resOk t.res = true)
    (hterm : (runDetect [] ts).1 = []) :
    countStarts (runDetect [] ts).2 = countEnds (runDetect [] ts).2 := by
  have hbal := runDetect_balance ts [] h
  rw [hterm] at hbal
  simp at hbal
  omega

/-- C7 (witness): the parity theorem applied to the trace (start of ranked
session 1, inactive with successful resolution). -/
theorem parity_with_resolution_witness :
    (∀ t ∈ [(⟨.active 1 420, .recent true 420 true⟩ : Tick),
        ⟨.inactive, .recent true 420 true⟩], resOk t.res = true) ∧
    (runDetect [] [(⟨.active 1 420, .recent true 420 true⟩ : Tick),
        ⟨.inactive, .recent true 420 true⟩]).1 = [] ∧
    countStarts (runDetect [] [(⟨.active 1 420, .recent true 420 true⟩ : Tick),
        ⟨.inactive, .recent true 420 true⟩]).2 =
      countEnds (runDetect [] [(⟨.active 1 420, .recent true 420 true⟩ : Tick),
        ⟨.inactive, .recent true 420 true⟩]).2 :=
  ⟨by decide, by decide,
    parity_with_resolution _ (by decide) (by decide)⟩

/-- Lemma for C5: when the `yesterday_lp` global is defined, the summary
loop raises nothing. -/
theorem sds_lines_some_ok (m : List (String × Snap × Snap)) :
    ∀ dps : List (String × Account), ∃ l, sds_lines (some m) dps = .ok l := by
  intro dps
  induction dps with
  | nil => exact ⟨([], []), rfl⟩
  | cons pd rest ih =>
      obtain ⟨l, hl⟩ := ih
      obtain ⟨pseudo, pdata⟩ := pd
      refine ⟨(summary_line pseudo (yesterdayFor m pseudo).1 pdata.solo :: l.1,
        summary_line pseudo (yesterdayFor m pseudo).2 pdata.flex :: l.2), ?_⟩
      have h1 : sds_lines (some m) ((pseudo, pdata) :: rest) =
          sds_lines (some m) rest >>= fun r =>
            Except.ok (summary_line pseudo (yesterdayFor m pseudo).1
                pdata.solo :: r.1,
              summary_line pseudo (yesterdayFor m pseudo).2
                pdata.flex :: r.2) := rfl
      rw [h1, hl]
      rfl

/-- C5 (code bug): the digest pass can never reset any delta accumulator.
On the program's actual state — the global `players` is a list — the first
statement of the loop, `players.items()`, raises `AttributeError`, so the
digest mutates nothing (first conjunct).  And even under the dict-shaped
reading of `players`, with the `yesterday_lp` global defined, the digest
returns with the players object — every account's `daily_lp` included —
untouched: the closing loop writes only the `yesterday_lp` snapshot map
(second conjunct). -/
theorem send_daily_summary_crash :
    (∀ (ps : List Account) (ylp : Option (List (String × Snap × Snap))),
        send_daily_summary (.pylist ps) ylp = .error "AttributeError") ∧
    (∀ (dps : List (String × Account)) (m : List (String × Snap × Snap)),
        ∃ r, send_daily_summary (.pydict dps) (some m) =
          .ok (.pydict dps, r)) := by
  constructor
  · intro ps ylp
    rfl
  · intro dps m
    obtain ⟨l, hl⟩ := sds_lines_some_ok m dps
    refine ⟨(l.1, l.2,
      some (dps.foldl
        (fun acc pd => dictSet pd.1 (snapOf pd.2.solo, snapOf pd.2.flex) acc)
        m)), ?_⟩
    have h1 : send_daily_summary (.pydict dps) (some m) =
        sds_lines (some m) dps >>= fun lines =>
          Except.ok (.pydict dps, lines.1, lines.2,
            some (dps.foldl
              (fun acc pd =>
                dictSet pd.1 (snapOf pd.2.solo, snapOf pd.2.flex) acc)
              m)) := rfl
    rw [h1, hl]
    rfl

/-- Players list for the C6 leaderboard trace: GOLD II 40, GOLD II 10,
SILVER I 99 and an unranked entry, in that original order. -/
def c6Players : List Account :=
  [⟨"p1", "Anna", some ⟨"GOLD", "II", 40, 0, none, none⟩, none, none⟩,
   ⟨"p2", "Bob", some ⟨"GOLD", "II", 10, 0, none, none⟩, none, none⟩,
   ⟨"p3", "Cleo", some ⟨"SILVER", "I", 99, 0, none, none⟩, none, none⟩,
   ⟨"p4", "Dan", some ⟨"UNRANKED", "", 0, 0, none, none⟩, none, none⟩]

/-- C6 (code bug): on the spec's own test vector the `leaderboard` sort
produces [SILVER-I-99, GOLD-II-10, GOLD-II-40, UNRANKED], not the claimed
[GOLD-II-40, GOLD-II-10, SILVER-I-99, UNRANKED]: `rank_order` numbers grow
from IRON = 1 upward, so the ascending sort puts lower tiers first, and the
third key component is the raw point value ascending, not descending.
Only the unranked-last part of the claim survives. -/
theorem leaderboard_order_bug :
    leaderboard c6Players =
      [⟨"Cleo", "SILVER", "I", 99⟩, ⟨"Bob", "GOLD", "II", 10⟩,
       ⟨"Anna", "GOLD", "II", 40⟩, ⟨"Dan", "UNRANKED", "", 0⟩] ∧
    leaderboard c6Players ≠
      [⟨"Anna", "GOLD", "II", 40⟩, ⟨"Bob", "GOLD", "II", 10⟩,
       ⟨"Cleo", "SILVER", "I", 99⟩, ⟨"Dan", "UNRANKED", "", 0⟩] := by
  decide

/-- C9 (code bug): the registration input "A#B#C" — malformed, two '#'
separators — passes the `"#" not in pseudo` guard, and the unpacking
`name, tag = pseudo.split("#")` then raises an unhandled `ValueError`: no
user-visible message is sent (first conjunct; the players list is not
mutated, as no state is returned).  Input with no '#' at all is, by
contrast, rejected gracefully with a message and an unchanged players list
(second conjunct). -/
theorem register_double_hash_bug (lookup : String → String → Option String)
    (lpData : List LeagueEntry) (players : List Account) :
    register "A#B#C" lookup lpData players = .error "ValueError" ∧
    register "AB" lookup lpData players =
      .ok (players, ["Format invalide : Nom#TAG"]) :=
  ⟨rfl, rfl⟩

/-- C10 (confirmed): `update_player` returns `True` exactly when some entry
of the list carries the given player's puuid, and the returned list is the
input list with the entry at the first matching index replaced by the
given player — `List.set` leaves every other position unchanged, and at an
out-of-range index (the `findIdx` fallback when no entry matches) it
returns the list itself, so a failed lookup leaves the list completely
unchanged; the length is preserved in every case. -/
theorem update_player_spec (player : PPlayer) (ps : List PPlayer) :
    (update_player player ps).1 =
        ps.any (fun p => p.puuid == player.puuid) ∧
    (update_player player ps).2 =
        ps.set (ps.findIdx fun p => p.puuid == player.puuid) player ∧
    (update_player player ps).2.length = ps.length := by
  induction ps with
  | nil => simp [update_player]
  | cons p ps ih =>
      by_cases h : p.puuid = player.puuid
      · simp [update_player, h, List.findIdx_cons]
      · have hb : (p.puuid == player.puuid) = false := by simp [h]
        simp [update_player, h, hb, List.findIdx_cons, ih.1, ih.2.1, ih.2.2]
